import Mathlib

/-
Shallow embedding of the go-mailnow SDK core (validation engine, transport
layer, client facade) and proofs of the specified properties.

Sources embedded: errors.go, types.go, validation.go, http.go, client.go.
External effects (JSON marshalling, HTTP request construction and execution,
body reads) are modelled as oracle parameters: the embedding is parametric in
their outcomes, exactly as the Go code is parametric in what the standard
library and the network return.
-/

namespace Mailnow

/-- The five SDK error kinds of errors.go (ValidationError, AuthError,
RateLimitError, ServerError, ConnectionError). -/
inductive ErrKind : Type where
  | validation
  | auth
  | rateLimit
  | server
  | connection
deriving DecidableEq, Repr

/-- A Go error value as this SDK sees it: either one of the five SDK error
kinds (wrapping a message and an optional cause, as the shared base struct
in errors.go does), or an error produced outside the SDK (a JSON error, a
network error, ...) of which only the message is observable. -/
inductive GoError : Type where
  | sdkBare (kind : ErrKind) (message : String)
  | sdkWrap (kind : ErrKind) (message : String) (cause : GoError)
  | external (message : String)
deriving DecidableEq, Repr

/-- The shared base constructor of errors.go: an SDK error of a given kind
with a message and an optional (possibly nil) cause. -/
def GoError.sdk (kind : ErrKind) (message : String) : Option GoError → GoError
  | none => .sdkBare kind message
  | some c => .sdkWrap kind message c

/-- NewValidationError of errors.go. -/
def NewValidationError (message : String) (cause : Option GoError) : GoError :=
  .sdk .validation message cause

/-- NewAuthError of errors.go. -/
def NewAuthError (message : String) (cause : Option GoError) : GoError :=
  .sdk .auth message cause

/-- NewRateLimitError of errors.go. -/
def NewRateLimitError (message : String) (cause : Option GoError) : GoError :=
  .sdk .rateLimit message cause

/-- NewServerError of errors.go. -/
def NewServerError (message : String) (cause : Option GoError) : GoError :=
  .sdk .server message cause

/-- NewConnectionError of errors.go. -/
def NewConnectionError (message : String) (cause : Option GoError) : GoError :=
  .sdk .connection message cause

/-- The kind of an SDK error (none for an error from outside the SDK):
the discriminant used for the structural matching of §4.1. -/
def GoError.kindOf : GoError → Option ErrKind
  | .sdkBare k _ => some k
  | .sdkWrap k _ _ => some k
  | .external _ => none

/-- The message field of an error. -/
def GoError.messageOf : GoError → String
  | .sdkBare _ m => m
  | .sdkWrap _ m _ => m
  | .external m => m

/-- The Unwrap method of errors.go: the wrapped cause. -/
def GoError.causeOf : GoError → Option GoError
  | .sdkBare _ _ => none
  | .sdkWrap _ _ c => some c
  | .external _ => none

/-- The Attachment struct of types.go. -/
structure Attachment : Type where
  Filename : String
  Content : String
  ContentType : String
deriving DecidableEq, Repr

/-- The EmailRequest struct of types.go. -/
structure EmailRequest : Type where
  From : String
  To : String
  Subject : String
  HTML : String
  Attachments : List Attachment
deriving DecidableEq, Repr

/-- The Data struct of types.go (the payload inside EmailResponse). -/
structure MailData : Type where
  MessageID : String
  Status : String
deriving DecidableEq, Repr

/-- The EmailResponse struct of types.go. -/
structure EmailResponse : Type where
  Data : MailData
  Message : String
  StatusCode : Int
  Success : Bool
deriving DecidableEq, Repr

/-- The ErrorResponse struct of types.go (details is carried opaquely;
only the message is ever read by the SDK). -/
structure ErrorResponse : Type where
  code : String
  message : String
  details : List (String × String)
deriving DecidableEq, Repr

/-- APIBaseURL constant. -/
def APIBaseURL : String := "https://api.mailnow.xyz"

/-- EmailSendEndpoint constant. -/
def EmailSendEndpoint : String := "/v1/email/send"

/-- APIKeyPrefixLive constant. -/
def APIKeyPrefixLive : String := "mn_live_"

/-- APIKeyPrefixTest constant. -/
def APIKeyPrefixTest : String := "mn_test_"

/-- RequestTimeout constant (in seconds). -/
def RequestTimeoutSeconds : Nat := 30

/-- Whether the first list starts with the second (character model of
strings.HasPrefix). -/
def listStartsWith : List Char → List Char → Bool
  | _, [] => true
  | [], _ :: _ => false
  | c :: cs, d :: ds => decide (c = d) && listStartsWith cs ds

/-- strings.HasPrefix of the Go standard library: s begins with p. -/
def strHasPre (s p : String) : Bool :=
  listStartsWith s.toList p.toList

/-- Characters accepted by the local part of emailRegex:
`[a-zA-Z0-9._%+\-]`. -/
def isLocalChar (c : Char) : Bool :=
  c.isAlpha || c.isDigit || c = '.' || c = '_' || c = '%' || c = '+' || c = '-'

/-- Characters accepted by the domain part of emailRegex: `[a-zA-Z0-9.\-]`. -/
def isDomainChar (c : Char) : Bool :=
  c.isAlpha || c.isDigit || c = '.' || c = '-'

/-- The `[a-zA-Z]\x7b2,\x7d` tail of emailRegex: at least two letters. -/
def tldOK (t : List Char) : Bool :=
  decide (2 ≤ t.length) && t.all Char.isAlpha

/-- Membership of the part after `@` in the language `[a-zA-Z0-9.\-]+\.[a-zA-Z]\x7b2,\x7d`:
some split at a literal dot has a nonempty all-domain-chars left part and a
valid top-level label on the right. -/
def domainMatches (r : List Char) : Bool :=
  (List.range r.length).any fun k =>
    decide (r.take k ≠ []) && (r.take k).all isDomainChar &&
      (match r.drop k with
       | c :: t => decide (c = '.') && tldOK t
       | [] => false)

/-- emailRegex.MatchString of validation.go: membership of the whole string
in the anchored language `^[a-zA-Z0-9._%+\-]+@[a-zA-Z0-9.\-]+\.[a-zA-Z]\x7b2,\x7d$`. -/
def emailRegexMatches (s : String) : Bool :=
  (List.range s.toList.length).any fun i =>
    decide (s.toList.take i ≠ []) && (s.toList.take i).all isLocalChar &&
      (match s.toList.drop i with
       | c :: rest => decide (c = '@') && domainMatches rest
       | [] => false)

/-- ValidateAPIKey of validation.go. `none` means the nil error (success). -/
def ValidateAPIKey (apiKey : String) : Option GoError :=
  if apiKey = "" then
    some (NewValidationError "API key cannot be empty" none)
  else if !(strHasPre apiKey APIKeyPrefixLive) && !(strHasPre apiKey APIKeyPrefixTest) then
    some (NewValidationError "API key must start with \x27mn_live_\x27 or \x27mn_test_\x27" none)
  else
    none

/-- ValidateEmailAddress of validation.go. -/
def ValidateEmailAddress (email : String) : Option GoError :=
  if email = "" then
    some (NewValidationError "email address cannot be empty" none)
  else if !(emailRegexMatches email) then
    some (NewValidationError ("invalid email address format: " ++ email) none)
  else
    none

/-- ValidateEmailRequest of validation.go; the argument is a Go pointer,
so `none` embeds the nil pointer. -/
def ValidateEmailRequest (req : Option EmailRequest) : Option GoError :=
  match req with
  | none => some (NewValidationError "email request cannot be nil" none)
  | some r =>
    if r.From = "" then
      some (NewValidationError "from address is required" none)
    else
      match ValidateEmailAddress r.From with
      | some err => some (NewValidationError "invalid from address" (some err))
      | none =>
        if r.To = "" then
          some (NewValidationError "to address is required" none)
        else
          match ValidateEmailAddress r.To with
          | some err => some (NewValidationError "invalid to address" (some err))
          | none =>
            if r.Subject = "" then
              some (NewValidationError "subject is required" none)
            else if r.HTML = "" then
              some (NewValidationError "HTML body is required" none)
            else
              none

/-- An http.Response as the SDK observes it: the status code, and the outcome
of reading its body with io.ReadAll (which may itself fail). -/
structure HttpResponse : Type where
  StatusCode : Int
  ReadBody : Except String String
deriving Repr

/-- The outcomes of the three external effects inside MakeRequest:
json.Marshal of the body, http.NewRequestWithContext, and client.Do
(the last of which absorbs context cancellation and timeouts). -/
structure TransportOracle : Type where
  MarshalBody : Except String String
  NewRequest : Except String Unit
  DoRequest : Except String HttpResponse
deriving Repr

/-- The tail of MakeRequest after the body has been encoded: request
construction, headers, execution. -/
def makeRequestAfterBody (o : TransportOracle) : Except GoError HttpResponse :=
  match o.NewRequest with
  | .error e => .error (NewConnectionError "failed to create request" (some (.external e)))
  | .ok _ =>
    match o.DoRequest with
    | .error e => .error (NewConnectionError "failed to send request" (some (.external e)))
    | .ok resp => .ok resp

/-- MakeRequest of http.go. The method, url and apiKey parameters are consumed
by the request-construction and execution effects, which the oracle models. -/
def MakeRequest (o : TransportOracle) (_method _url _apiKey : String)
    (body : Option EmailRequest) : Except GoError HttpResponse :=
  match body with
  | some _ =>
    match o.MarshalBody with
    | .error e => .error (NewValidationError "failed to encode request body" (some (.external e)))
    | .ok _ => makeRequestAfterBody o
  | none => makeRequestAfterBody o

/-- mapStatusCodeToError of http.go. -/
def mapStatusCodeToError (statusCode : Int) (message : String) : GoError :=
  if statusCode = 400 then
    NewValidationError message none
  else if statusCode = 401 then
    NewAuthError message none
  else if statusCode = 429 then
    NewRateLimitError message none
  else if 500 ≤ statusCode then
    NewServerError message none
  else
    NewServerError ("unexpected status code " ++ toString statusCode ++ ": " ++ message) none

/-- HandleResponse of http.go. `unmarshalErr` is the outcome function of
json.Unmarshal into ErrorResponse on each possible body. -/
def HandleResponse (unmarshalErr : String → Except String ErrorResponse)
    (resp : HttpResponse) : Except GoError String :=
  match resp.ReadBody with
  | .error e => .error (NewConnectionError "failed to read response body" (some (.external e)))
  | .ok body =>
    if 200 ≤ resp.StatusCode ∧ resp.StatusCode < 300 then
      .ok body
    else
      match unmarshalErr body with
      | .error _ => .error (mapStatusCodeToError resp.StatusCode body)
      | .ok errResp =>
        let errorMessage :=
          if errResp.message = "" then
            "API request failed with status " ++ toString resp.StatusCode
          else
            errResp.message
        .error (mapStatusCodeToError resp.StatusCode errorMessage)

/-- The Client struct of client.go. -/
structure Client : Type where
  apiKey : String
  baseURL : String
  timeoutSeconds : Nat
deriving DecidableEq, Repr

/-- NewClient of client.go: Go returns the pair (*Client, error), embedded as
a pair of options. -/
def NewClient (apiKey : String) : Option Client × Option GoError :=
  match ValidateAPIKey apiKey with
  | some err => (none, some err)
  | none => (some ⟨apiKey, APIBaseURL, RequestTimeoutSeconds⟩, none)

/-- All external outcomes a SendEmail call can observe: the transport effects
and the two json.Unmarshal outcome functions (into ErrorResponse inside
HandleResponse, into EmailResponse inside SendEmail). -/
structure SendWorld : Type where
  transport : TransportOracle
  unmarshalErrBody : String → Except String ErrorResponse
  unmarshalEmailResp : String → Except String EmailResponse

/-- SendEmail of client.go, returning the Go result pair (*EmailResponse,
error) together with the number of times the transport (MakeRequest) was
invoked during the call. -/
def SendEmail (w : SendWorld) (c : Client) (req : Option EmailRequest) :
    (Option EmailResponse × Option GoError) × Nat :=
  match ValidateEmailRequest req with
  | some err => ((none, some err), 0)
  | none =>
    match MakeRequest w.transport "POST" (c.baseURL ++ EmailSendEndpoint) c.apiKey req with
    | .error err => ((none, some err), 1)
    | .ok resp =>
      match HandleResponse w.unmarshalErrBody resp with
      | .error err => ((none, some err), 1)
      | .ok body =>
        match w.unmarshalEmailResp body with
        | .error e =>
            ((none, some (NewServerError "failed to parse response" (some (.external e)))), 1)
        | .ok emailResp => ((some emailResp, none), 1)

/-! ### Helper lemmas -/

/-- ValidateEmailAddress succeeds exactly on nonempty strings matched by the
email regular expression. -/
lemma validateEmailAddress_none_iff (s : String) :
    ValidateEmailAddress s = none ↔ (s ≠ "" ∧ emailRegexMatches s = true) := by
  unfold ValidateEmailAddress
  split_ifs with h1 h2 <;> simp_all [Bool.not_eq_true']

/-- ValidateEmailRequest succeeds exactly when all six field checks pass. -/
lemma validateEmailRequest_none_iff (r : EmailRequest) :
    ValidateEmailRequest (some r) = none ↔
      (r.From ≠ "" ∧ ValidateEmailAddress r.From = none ∧
       r.To ≠ "" ∧ ValidateEmailAddress r.To = none ∧
       r.Subject ≠ "" ∧ r.HTML ≠ "") := by
  unfold ValidateEmailRequest
  repeat' split
  all_goals simp_all

/-- Every error ValidateEmailRequest produces is a ValidationError. -/
lemma validateEmailRequest_some_kind (req : Option EmailRequest) (e : GoError)
    (h : ValidateEmailRequest req = some e) : e.kindOf = some ErrKind.validation := by
  unfold ValidateEmailRequest at h
  repeat' split at h
  all_goals cases h
  all_goals rfl

/-- Unpacking a successful domain match: some split has a literal dot with a
nonempty domain on the left and a valid top-level label on the right. -/
lemma domainMatches_decomp {r : List Char} (h : domainMatches r = true) :
    ∃ k t, r.drop k = '.' :: t ∧ r.take k ≠ [] ∧
      (∀ c ∈ r.take k, isDomainChar c = true) ∧
      2 ≤ t.length ∧ (∀ c ∈ t, c.isAlpha = true) := by
  unfold domainMatches at h
  rw [List.any_eq_true] at h
  obtain ⟨k, _, hf⟩ := h
  cases hd : r.drop k with
  | nil => rw [hd] at hf; simp at hf
  | cons c t =>
    rw [hd] at hf
    simp only [Bool.and_eq_true, decide_eq_true_eq, tldOK, List.all_eq_true] at hf
    obtain ⟨⟨hne, hall⟩, hc, hlen, halpha⟩ := hf
    exact ⟨k, t, by rw [hd, hc], hne, hall, hlen, halpha⟩

/-- Unpacking a successful email match: the string splits at a literal at-sign
into a nonempty local part and a matching domain part. -/
lemma emailRegexMatches_decomp {s : String} (h : emailRegexMatches s = true) :
    ∃ i rest, s.toList.drop i = '@' :: rest ∧ s.toList.take i ≠ [] ∧
      (∀ c ∈ s.toList.take i, isLocalChar c = true) ∧ domainMatches rest = true := by
  unfold emailRegexMatches at h
  rw [List.any_eq_true] at h
  obtain ⟨i, _, hf⟩ := h
  cases hd : s.toList.drop i with
  | nil => rw [hd] at hf; simp at hf
  | cons c rest =>
    rw [hd] at hf
    simp only [Bool.and_eq_true, decide_eq_true_eq, List.all_eq_true] at hf
    obtain ⟨⟨hne, hall⟩, hc, hdm⟩ := hf
    exact ⟨i, rest, by rw [hd, hc], hne, hall, hdm⟩

/-- Every character of a string accepted by the email regular expression is a
local-part character, the at-sign, a domain character, a dot, or a letter. -/
lemma emailRegexMatches_char_class {s : String} (h : emailRegexMatches s = true) :
    ∀ c ∈ s.toList,
      isLocalChar c = true ∨ c = '@' ∨ isDomainChar c = true ∨ c = '.' ∨ c.isAlpha = true := by
  obtain ⟨i, rest, hdrop, -, hloc, hdm⟩ := emailRegexMatches_decomp h
  obtain ⟨k, t, hdrop2, -, hdom, -, halpha⟩ := domainMatches_decomp hdm
  intro c hc
  rw [← List.take_append_drop i s.toList] at hc
  rcases List.mem_append.mp hc with h1 | h2
  · exact Or.inl (hloc c h1)
  · rw [hdrop] at h2
    rcases List.mem_cons.mp h2 with rfl | h3
    · exact Or.inr (Or.inl rfl)
    · rw [← List.take_append_drop k rest] at h3
      rcases List.mem_append.mp h3 with h4 | h5
      · exact Or.inr (Or.inr (Or.inl (hdom c h4)))
      · rw [hdrop2] at h5
        rcases List.mem_cons.mp h5 with rfl | h6
        · exact Or.inr (Or.inr (Or.inr (Or.inl rfl)))
        · exact Or.inr (Or.inr (Or.inr (Or.inr (halpha c h6))))

/-- A string with no at-sign never matches the email regular expression. -/
lemma emailRegexMatches_of_no_at {s : String} (h : '@' ∉ s.toList) :
    emailRegexMatches s = false := by
  cases hb : emailRegexMatches s
  · rfl
  · obtain ⟨i, rest, hdrop, -, -, -⟩ := emailRegexMatches_decomp hb
    have hin : '@' ∈ s.toList.drop i := by
      rw [hdrop]; exact List.mem_cons_self _ _
    have : '@' ∈ s.toList := by
      rw [← List.take_append_drop i s.toList]
      exact List.mem_append.mpr (Or.inr hin)
    exact absurd this h

/-- A string with no dot never matches the email regular expression. -/
lemma emailRegexMatches_of_no_dot {s : String} (h : '.' ∉ s.toList) :
    emailRegexMatches s = false := by
  cases hb : emailRegexMatches s
  · rfl
  · obtain ⟨i, rest, hdrop, -, -, hdm⟩ := emailRegexMatches_decomp hb
    obtain ⟨k, t, hdrop2, -, -, -, -⟩ := domainMatches_decomp hdm
    have h1 : '.' ∈ rest := by
      rw [← List.take_append_drop k rest]
      refine List.mem_append.mpr (Or.inr ?_)
      rw [hdrop2]; exact List.mem_cons_self _ _
    have h2 : '.' ∈ s.toList.drop i := by
      rw [hdrop]; exact List.mem_cons_of_mem _ h1
    have : '.' ∈ s.toList := by
      rw [← List.take_append_drop i s.toList]
      exact List.mem_append.mpr (Or.inr h2)
    exact absurd this h

/-- A string containing a space never matches the email regular expression. -/
lemma emailRegexMatches_of_space {s : String} (h : ' ' ∈ s.toList) :
    emailRegexMatches s = false := by
  cases hb : emailRegexMatches s
  · rfl
  · rcases emailRegexMatches_char_class hb ' ' h with h1 | h1 | h1 | h1 | h1 <;>
      exact absurd h1 (by decide)

/-! ### Claim theorems -/

/-- C1: mapStatusCodeToError is a total deterministic mapping giving each
integer status exactly one error kind: 400 yields ValidationError, 401
AuthError, 429 RateLimitError, every value at least 500 ServerError, and every
other value a ServerError whose message notes the unexpected code. -/
theorem mapStatusCodeToError_buckets (sc : Int) (msg : String) :
    ((mapStatusCodeToError sc msg).kindOf =
      some (if sc = 400 then ErrKind.validation
            else if sc = 401 then ErrKind.auth
            else if sc = 429 then ErrKind.rateLimit
            else ErrKind.server))
  ∧ (sc ≠ 400 → sc ≠ 401 → sc ≠ 429 → sc < 500 →
      mapStatusCodeToError sc msg =
        NewServerError ("unexpected status code " ++ toString sc ++ ": " ++ msg) none) := by
  constructor
  · unfold mapStatusCodeToError
    split_ifs <;> rfl
  · intro h1 h2 h3 h4
    unfold mapStatusCodeToError
    rw [if_neg h1, if_neg h2, if_neg h3, if_neg (by omega : ¬ (500 : Int) ≤ sc)]

/-- Witness for C1 at the concrete unrecognized status 404. -/
theorem mapStatusCodeToError_buckets_witness :
    (mapStatusCodeToError 404 "nf").kindOf = some ErrKind.server ∧
    mapStatusCodeToError 404 "nf" =
      NewServerError "unexpected status code 404: nf" none := by
  have h := mapStatusCodeToError_buckets 404 "nf"
  refine ⟨by simpa using h.1, ?_⟩
  rw [h.2 (by decide) (by decide) (by decide) (by decide)]
  rfl

/-- C4: every SendEmail call returns exactly one of the two results: a present
response with an absent error, or an absent response with a present error. -/
theorem sendEmail_result_exclusive (w : SendWorld) (c : Client) (req : Option EmailRequest) :
    (∃ resp, (SendEmail w c req).1 = (some resp, none)) ∨
    (∃ e, (SendEmail w c req).1 = (none, some e)) := by
  unfold SendEmail
  split
  · exact Or.inr ⟨_, rfl⟩
  · split
    · exact Or.inr ⟨_, rfl⟩
    · split
      · exact Or.inr ⟨_, rfl⟩
      · split
        · exact Or.inr ⟨_, rfl⟩
        · exact Or.inl ⟨_, rfl⟩

/-- C5: when validation fails, SendEmail returns that ValidationError at once
and the transport is invoked zero times. -/
theorem sendEmail_validation_no_network (w : SendWorld) (c : Client)
    (req : Option EmailRequest) (e : GoError)
    (h : ValidateEmailRequest req = some e) :
    SendEmail w c req = ((none, some e), 0) := by
  unfold SendEmail
  rw [h]

/-- Witness for C5: the nil request fails validation with zero transport
invocations, under an arbitrary concrete world. -/
theorem sendEmail_validation_no_network_witness :
    SendEmail
      ⟨⟨.ok "x", .ok (), .error "net"⟩, fun _ => .error "y", fun _ => .error "z"⟩
      ⟨"mn_test_k", APIBaseURL, RequestTimeoutSeconds⟩ none =
      ((none, some (NewValidationError "email request cannot be nil" none)), 0) :=
  sendEmail_validation_no_network _ _ none _ rfl

/-- C10: validation is independent of the Attachments field: requests agreeing
on from, to, subject and htmlBody validate identically. -/
theorem validateEmailRequest_attachments_independent (r1 r2 : EmailRequest)
    (hf : r1.From = r2.From) (ht : r1.To = r2.To)
    (hs : r1.Subject = r2.Subject) (hh : r1.HTML = r2.HTML) :
    ValidateEmailRequest (some r1) = ValidateEmailRequest (some r2) := by
  obtain ⟨f1, t1, s1, h1, a1⟩ := r1
  obtain ⟨f2, t2, s2, h2, a2⟩ := r2
  simp only at hf ht hs hh
  subst hf ht hs hh
  rfl

/-- Witness for C10: a request with no attachments and one with an attachment
of empty filename, content and content type validate identically. -/
theorem validateEmailRequest_attachments_independent_witness :
    ValidateEmailRequest (some ⟨"a@b.co", "c@d.co", "s", "h", []⟩) =
      ValidateEmailRequest (some ⟨"a@b.co", "c@d.co", "s", "h", [⟨"", "", ""⟩]⟩) :=
  validateEmailRequest_attachments_independent _ _ rfl rfl rfl rfl

/-- C6: ValidateEmailRequest checks its conditions in the fixed order (nil
request with its own message, missing from, invalid from, missing to, invalid
to, missing subject, missing htmlBody), short-circuits on the first failure,
produces at most one error per call, and the format failures wrap the address
sub-check error as their cause. -/
theorem validateEmailRequest_order (r : EmailRequest) :
    (ValidateEmailRequest none =
      some (NewValidationError "email request cannot be nil" none))
  ∧ (r.From = "" →
      ValidateEmailRequest (some r) =
        some (NewValidationError "from address is required" none))
  ∧ (∀ e, r.From ≠ "" → ValidateEmailAddress r.From = some e →
      ValidateEmailRequest (some r) =
        some (NewValidationError "invalid from address" (some e)))
  ∧ (r.From ≠ "" → ValidateEmailAddress r.From = none → r.To = "" →
      ValidateEmailRequest (some r) =
        some (NewValidationError "to address is required" none))
  ∧ (∀ e, r.From ≠ "" → ValidateEmailAddress r.From = none →
      r.To ≠ "" → ValidateEmailAddress r.To = some e →
      ValidateEmailRequest (some r) =
        some (NewValidationError "invalid to address" (some e)))
  ∧ (r.From ≠ "" → ValidateEmailAddress r.From = none →
      r.To ≠ "" → ValidateEmailAddress r.To = none → r.Subject = "" →
      ValidateEmailRequest (some r) =
        some (NewValidationError "subject is required" none))
  ∧ (r.From ≠ "" → ValidateEmailAddress r.From = none →
      r.To ≠ "" → ValidateEmailAddress r.To = none → r.Subject ≠ "" → r.HTML = "" →
      ValidateEmailRequest (some r) =
        some (NewValidationError "HTML body is required" none))
  ∧ (r.From ≠ "" → ValidateEmailAddress r.From = none →
      r.To ≠ "" → ValidateEmailAddress r.To = none → r.Subject ≠ "" → r.HTML ≠ "" →
      ValidateEmailRequest (some r) = none) := by
  refine ⟨rfl, ?_, ?_, ?_, ?_, ?_, ?_, ?_⟩
  · intro h1
    simp only [ValidateEmailRequest]
    rw [if_pos h1]
  · intro e h1 h2
    simp only [ValidateEmailRequest]
    rw [if_neg h1, h2]
  · intro h1 h2 h3
    simp only [ValidateEmailRequest]
    rw [if_neg h1, h2, if_pos h3]
  · intro e h1 h2 h3 h4
    simp only [ValidateEmailRequest]
    rw [if_neg h1, h2, if_neg h3, h4]
  · intro h1 h2 h3 h4 h5
    simp only [ValidateEmailRequest]
    rw [if_neg h1, h2, if_neg h3, h4, if_pos h5]
  · intro h1 h2 h3 h4 h5 h6
    simp only [ValidateEmailRequest]
    rw [if_neg h1, h2, if_neg h3, h4, if_neg h5, if_pos h6]
  · intro h1 h2 h3 h4 h5 h6
    simp only [ValidateEmailRequest]
    rw [if_neg h1, h2, if_neg h3, h4, if_neg h5, if_neg h6]

/-- Witness for C6: a missing from short-circuits before the to check, and an
invalid from wraps the address sub-check error as its cause. -/
theorem validateEmailRequest_order_witness :
    ValidateEmailRequest (some ⟨"", "", "", "", []⟩) =
      some (NewValidationError "from address is required" none)
  ∧ ValidateEmailRequest (some ⟨"x", "", "", "", []⟩) =
      some (NewValidationError "invalid from address"
        (some (NewValidationError "invalid email address format: x" none))) := by
  constructor
  · exact (validateEmailRequest_order ⟨"", "", "", "", []⟩).2.1 rfl
  · exact (validateEmailRequest_order ⟨"x", "", "", "", []⟩).2.2.1 _ (by decide) (by decide)

/-- C7: NewClient rejects exactly the keys lacking both accepted prefixes,
returning a ValidationError and no client, and accepts every key with either
prefix with no further check, returning the configured client. -/
theorem newClient_key_check (key : String) :
    (¬ (strHasPre key APIKeyPrefixLive = true ∨ strHasPre key APIKeyPrefixTest = true) →
      (NewClient key).1 = none ∧
      ∃ e, (NewClient key).2 = some e ∧ e.kindOf = some ErrKind.validation)
  ∧ ((strHasPre key APIKeyPrefixLive = true ∨ strHasPre key APIKeyPrefixTest = true) →
      NewClient key = (some ⟨key, APIBaseURL, RequestTimeoutSeconds⟩, none)) := by
  constructor
  · intro h
    push_neg at h
    obtain ⟨hl, ht⟩ := h
    simp only [ne_eq, Bool.not_eq_true] at hl ht
    unfold NewClient ValidateAPIKey
    by_cases he : key = ""
    · rw [if_pos he]
      exact ⟨rfl, _, rfl, rfl⟩
    · rw [if_neg he, if_pos (by simp [hl, ht])]
      exact ⟨rfl, _, rfl, rfl⟩
  · intro h
    have he : key ≠ "" := by
      rintro rfl
      rcases h with h | h <;> exact absurd h (by decide)
    unfold NewClient ValidateAPIKey
    rw [if_neg he, if_neg (by rcases h with h | h <;> simp [h])]

/-- Witness for C7: a prefixless key is rejected with a ValidationError and no
client; a live-prefixed key yields the configured client and no error. -/
theorem newClient_key_check_witness :
    ((NewClient "zzz").1 = none ∧
      ∃ e, (NewClient "zzz").2 = some e ∧ e.kindOf = some ErrKind.validation)
  ∧ NewClient "mn_live_1" = (some ⟨"mn_live_1", APIBaseURL, RequestTimeoutSeconds⟩, none) :=
  ⟨(newClient_key_check "zzz").1 (by decide),
   (newClient_key_check "mn_live_1").2 (Or.inl (by decide))⟩

/-- C9: MakeRequest classifies its failures by stage: body serialization
failure yields ValidationError, request construction failure yields
ConnectionError, and execution failure (including cancellation or timeout
surfacing through the underlying call) yields ConnectionError; each failing
stage returns an error and no response. -/
theorem makeRequest_stage_classification (o : TransportOracle)
    (method url apiKey : String) (b : EmailRequest) (e : String) :
    (o.MarshalBody = .error e →
      MakeRequest o method url apiKey (some b) =
        .error (NewValidationError "failed to encode request body" (some (.external e))))
  ∧ (∀ body, o.NewRequest = .error e → (body = none ∨ ∃ s, o.MarshalBody = .ok s) →
      MakeRequest o method url apiKey body =
        .error (NewConnectionError "failed to create request" (some (.external e))))
  ∧ (∀ body, o.NewRequest = .ok () → o.DoRequest = .error e →
      (body = none ∨ ∃ s, o.MarshalBody = .ok s) →
      MakeRequest o method url apiKey body =
        .error (NewConnectionError "failed to send request" (some (.external e)))) := by
  refine ⟨?_, ?_, ?_⟩
  · intro h
    unfold MakeRequest
    rw [h]
  · rintro body h (rfl | ⟨s, hs⟩)
    · unfold MakeRequest makeRequestAfterBody
      rw [h]
    · cases body with
      | none =>
        unfold MakeRequest makeRequestAfterBody
        rw [h]
      | some b2 =>
        unfold MakeRequest makeRequestAfterBody
        rw [hs, h]
  · rintro body h1 h2 (rfl | ⟨s, hs⟩)
    · unfold MakeRequest makeRequestAfterBody
      rw [h1, h2]
    · cases body with
      | none =>
        unfold MakeRequest makeRequestAfterBody
        rw [h1, h2]
      | some b2 =>
        unfold MakeRequest makeRequestAfterBody
        rw [hs, h1, h2]

/-- Witness for C9: the three failing stages observed on concrete oracles. -/
theorem makeRequest_stage_classification_witness :
    MakeRequest ⟨.error "enc", .ok (), .error "unused"⟩ "POST" "u" "k"
        (some ⟨"a@b.co", "c@d.co", "s", "h", []⟩) =
      .error (NewValidationError "failed to encode request body" (some (.external "enc")))
  ∧ MakeRequest ⟨.ok "{}", .error "ctor", .error "unused"⟩ "POST" "u" "k" none =
      .error (NewConnectionError "failed to create request" (some (.external "ctor")))
  ∧ MakeRequest ⟨.ok "{}", .ok (), .error "net"⟩ "POST" "u" "k" none =
      .error (NewConnectionError "failed to send request" (some (.external "net"))) := by
  refine ⟨?_, ?_, ?_⟩
  · exact (makeRequest_stage_classification ⟨.error "enc", .ok (), .error "unused"⟩
      "POST" "u" "k" ⟨"a@b.co", "c@d.co", "s", "h", []⟩ "enc").1 rfl
  · exact (makeRequest_stage_classification ⟨.ok "{}", .error "ctor", .error "unused"⟩
      "POST" "u" "k" ⟨"a@b.co", "c@d.co", "s", "h", []⟩ "ctor").2.1 none rfl (Or.inl rfl)
  · exact (makeRequest_stage_classification ⟨.ok "{}", .ok (), .error "net"⟩
      "POST" "u" "k" ⟨"a@b.co", "c@d.co", "s", "h", []⟩ "net").2.2 none rfl rfl (Or.inl rfl)

/-- C8: ValidateEmailAddress rejects the empty string and every string the
email regular expression does not accept; in particular strings with no
at-sign, no dot (covering a missing domain or top-level label) or an embedded
space are rejected, and SendEmail fails with a ValidationError whenever such a
value is the from or to address. -/
theorem validateEmailAddress_rejects (s : String) :
    (ValidateEmailAddress "" =
      some (NewValidationError "email address cannot be empty" none))
  ∧ (s ≠ "" → emailRegexMatches s = false →
      ValidateEmailAddress s =
        some (NewValidationError ("invalid email address format: " ++ s) none))
  ∧ ('@' ∉ s.toList → emailRegexMatches s = false)
  ∧ ('.' ∉ s.toList → emailRegexMatches s = false)
  ∧ (' ' ∈ s.toList → emailRegexMatches s = false)
  ∧ (∀ (w : SendWorld) (c : Client) (r : EmailRequest),
      (r.From = s ∨ r.To = s) → (s = "" ∨ emailRegexMatches s = false) →
      ∃ e, (SendEmail w c (some r)).1 = (none, some e) ∧
        e.kindOf = some ErrKind.validation) := by
  refine ⟨rfl, ?_, emailRegexMatches_of_no_at, emailRegexMatches_of_no_dot,
    emailRegexMatches_of_space, ?_⟩
  · intro hne hm
    unfold ValidateEmailAddress
    rw [if_neg hne, if_pos (by simp [hm])]
  · intro w c r hfield hbad
    have hner : ValidateEmailRequest (some r) ≠ none := by
      intro hv0
      obtain ⟨hf, hfok, ht, htok, -, -⟩ := (validateEmailRequest_none_iff r).mp hv0
      rcases hfield with rfl | rfl
      · rcases (validateEmailAddress_none_iff r.From).mp hfok with ⟨hne2, hm2⟩
        rcases hbad with hb | hb
        · exact hne2 hb
        · rw [hm2] at hb; cases hb
      · rcases (validateEmailAddress_none_iff r.To).mp htok with ⟨hne2, hm2⟩
        rcases hbad with hb | hb
        · exact hne2 hb
        · rw [hm2] at hb; cases hb
    cases hv : ValidateEmailRequest (some r) with
    | none => exact absurd hv hner
    | some e =>
      refine ⟨e, ?_, validateEmailRequest_some_kind _ e hv⟩
      unfold SendEmail
      rw [hv]

/-- Witness for C8: a spaced string is rejected by the regular expression, a
string with no at-sign draws the format error, and a malformed from address
makes SendEmail fail with a ValidationError. -/
theorem validateEmailAddress_rejects_witness :
    emailRegexMatches "ab cd" = false
  ∧ ValidateEmailAddress "ab" =
      some (NewValidationError "invalid email address format: ab" none)
  ∧ ∃ e, (SendEmail ⟨⟨.ok "x", .ok (), .error "n"⟩, fun _ => .error "p", fun _ => .error "q"⟩
        ⟨"mn_test_k", APIBaseURL, RequestTimeoutSeconds⟩
        (some ⟨"bad", "c@d.co", "s", "h", []⟩)).1 = (none, some e) ∧
      e.kindOf = some ErrKind.validation := by
  refine ⟨(validateEmailAddress_rejects "ab cd").2.2.2.2.1 (by decide), ?_, ?_⟩
  · exact (validateEmailAddress_rejects "ab").2.1 (by decide) (by decide)
  · exact (validateEmailAddress_rejects "bad").2.2.2.2.2 _ _
      ⟨"bad", "c@d.co", "s", "h", []⟩ (Or.inl rfl) (Or.inr (by decide))

/-! ### Concrete fixtures: a 2xx response whose body does not deserialize -/

/-- A well-formed request used by concrete instances. -/
def okReq : EmailRequest := ⟨"a@b.co", "c@d.co", "s", "h", []⟩

/-- A client built from a valid test key. -/
def okClient : Client := ⟨"mn_test_k", APIBaseURL, RequestTimeoutSeconds⟩

/-- A 200 response whose body reads fine but is not valid JSON for the
EmailResponse shape. -/
def parseFailResp : HttpResponse := ⟨200, .ok "not json"⟩

/-- A world in which the transport succeeds with parseFailResp and every
deserialization attempt fails. -/
def parseFailWorld : SendWorld :=
  ⟨⟨.ok "{}", .ok (), .ok parseFailResp⟩,
   fun _ => .error "no parse", fun _ => .error "invalid json"⟩

/-- On a readable 2xx response, HandleResponse returns the raw body bytes. -/
lemma handleResponse_2xx (u : String → Except String ErrorResponse)
    (resp : HttpResponse) (body : String)
    (hread : resp.ReadBody = .ok body)
    (h2xx : 200 ≤ resp.StatusCode ∧ resp.StatusCode < 300) :
    HandleResponse u resp = .ok body := by
  unfold HandleResponse
  rw [hread]
  exact if_pos h2xx

/-- The full pipeline outcome of a call whose transport reports a readable 2xx
response with a body the EmailResponse deserializer rejects. -/
lemma sendEmail_parse_failure_eq (w : SendWorld) (c : Client)
    (req : Option EmailRequest) (resp : HttpResponse) (body e : String)
    (hval : ValidateEmailRequest req = none)
    (hmk : MakeRequest w.transport "POST" (c.baseURL ++ EmailSendEndpoint) c.apiKey req = .ok resp)
    (h2xx : 200 ≤ resp.StatusCode ∧ resp.StatusCode < 300)
    (hread : resp.ReadBody = .ok body)
    (hparse : w.unmarshalEmailResp body = .error e) :
    SendEmail w c req =
      ((none, some (NewServerError "failed to parse response" (some (.external e)))), 1) := by
  unfold SendEmail
  simp only [hval, hmk, handleResponse_2xx w.unmarshalErrBody resp body hread h2xx, hparse]

/-- C2: when the transport reports a 2xx status but the returned body fails to
deserialize into the EmailResponse shape, SendEmail returns a ServerError (the
parse failure wrapped as its cause) and no response object. -/
theorem sendEmail_parse_failure_server (w : SendWorld) (c : Client)
    (req : Option EmailRequest) (resp : HttpResponse) (body e : String)
    (hval : ValidateEmailRequest req = none)
    (hmk : MakeRequest w.transport "POST" (c.baseURL ++ EmailSendEndpoint) c.apiKey req = .ok resp)
    (h2xx : 200 ≤ resp.StatusCode ∧ resp.StatusCode < 300)
    (hread : resp.ReadBody = .ok body)
    (hparse : w.unmarshalEmailResp body = .error e) :
    (SendEmail w c req).1 =
      (none, some (NewServerError "failed to parse response" (some (.external e)))) := by
  rw [sendEmail_parse_failure_eq w c req resp body e hval hmk h2xx hread hparse]

/-- Witness for C2 at the concrete 200-with-garbage-body world. -/
theorem sendEmail_parse_failure_server_witness :
    (SendEmail parseFailWorld okClient (some okReq)).1 =
      (none, some (NewServerError "failed to parse response"
        (some (.external "invalid json")))) :=
  sendEmail_parse_failure_server parseFailWorld okClient (some okReq)
    parseFailResp "not json" "invalid json" (by decide) rfl (by decide) rfl rfl

/-- C3 counterexample: a concrete SendEmail call whose HTTP outcome is 2xx and
whose body cannot be parsed as the success shape returns an error that is not
a ValidationError, contradicting the error-kind table row for
ValidationError. -/
theorem sendEmail_parse_failure_not_validation_cex :
    (200 ≤ parseFailResp.StatusCode ∧ parseFailResp.StatusCode < 300)
  ∧ parseFailWorld.unmarshalEmailResp "not json" = .error "invalid json"
  ∧ (SendEmail parseFailWorld okClient (some okReq)).1.2 =
      some (NewServerError "failed to parse response" (some (.external "invalid json")))
  ∧ (NewServerError "failed to parse response"
      (some (.external "invalid json"))).kindOf ≠ some ErrKind.validation := by
  exact ⟨by decide, rfl, rfl, by decide⟩

/-- C3 (amended): an unparseable success body triggers ServerError, not
ValidationError: whenever the HTTP outcome is 2xx but the body cannot be
parsed as the expected success shape, the error returned to the caller has
kind server and no response is returned. -/
theorem sendEmail_parse_failure_kind (w : SendWorld) (c : Client)
    (req : Option EmailRequest) (resp : HttpResponse) (body e : String)
    (hval : ValidateEmailRequest req = none)
    (hmk : MakeRequest w.transport "POST" (c.baseURL ++ EmailSendEndpoint) c.apiKey req = .ok resp)
    (h2xx : 200 ≤ resp.StatusCode ∧ resp.StatusCode < 300)
    (hread : resp.ReadBody = .ok body)
    (hparse : w.unmarshalEmailResp body = .error e) :
    (SendEmail w c req).1.1 = none ∧
    ∃ er, (SendEmail w c req).1.2 = some er ∧ er.kindOf = some ErrKind.server ∧
      er.kindOf ≠ some ErrKind.validation := by
  rw [sendEmail_parse_failure_eq w c req resp body e hval hmk h2xx hread hparse]
  refine ⟨rfl, NewServerError "failed to parse response" (some (.external e)), rfl, rfl, ?_⟩
  intro h
  simp [NewServerError, GoError.sdk, GoError.kindOf] at h

/-- Witness for the amended C3 at the concrete 200-with-garbage-body world. -/
theorem sendEmail_parse_failure_kind_witness :
    (SendEmail parseFailWorld okClient (some okReq)).1.1 = none ∧
    ∃ er, (SendEmail parseFailWorld okClient (some okReq)).1.2 = some er ∧
      er.kindOf = some ErrKind.server ∧ er.kindOf ≠ some ErrKind.validation :=
  sendEmail_parse_failure_kind parseFailWorld okClient (some okReq)
    parseFailResp "not json" "invalid json" (by decide) rfl (by decide) rfl rfl

end Mailnow
